import Mathlib

/-!
Shallow embedding of the polymarket-copy-trade pipeline
(`src/function/func_copy_trade.py`, `src/function/func_monitor.py`,
`src/function/func_backtest.py`, `src/main_copy_trade.py`).

External collaborators (the CLOB order-entry client, the web3 ABI decode
library, the websocket transport, the explorer REST client) are modelled as
inputs: their results are passed in as values (`Option`/`Except`/lists of
session outcomes), so the embedded functions capture exactly the control
flow written in this repository's own code.
-/

namespace CopyTrade

/-- Log severity levels used by the Python `logging` calls in the source. -/
inductive LogLevel
  | debug
  | info
  | warning
  | error
  deriving DecidableEq, Repr

/-- A log record: severity plus a message tag. -/
structure LogEntry where
  level : LogLevel
  msg : String
  deriving DecidableEq, Repr

/-! ## Trade mirror / executor (`func_copy_trade.py`) -/

/-- A Python value appearing in the `side` / `direction` slot of a trade
dict: the decoder produces an `Int` (0 = BUY, 1 = SELL), while
`place_order`'s docstring speaks of the strings "BUY"/"SELL". Python is
untyped, so both occur. -/
inductive SideVal
  | int (i : Int)
  | str (s : String)
  deriving DecidableEq, Repr

/-- Python truthiness of a value in the `side` slot: `None`, `0` and `""`
are falsy, everything else truthy. -/
def SideVal.truthy : Option SideVal → Bool
  | none => false
  | some (.int i) => i != 0
  | some (.str s) => !s.isEmpty

/-- The equality test `direction == "BUY"` performed by
`PolymarketTrader.place_order` (line 85): only the exact string "BUY"
selects the balance branch. -/
def SideVal.isBuyLiteral : SideVal → Bool
  | .int _ => false
  | .str s => s == "BUY"

/-- Results of the external order-entry collaborator consulted by
`place_order`: `balanceInfo` is what `check_cash_balance` returns
(`none` models the `None` returned when the query raised), and
`positionSize` is the value of `get_target_position_size`. -/
structure OrderEnv where
  balanceInfo : Option ℚ
  positionSize : ℚ
  deriving DecidableEq, Repr

/-- Outcome of `PolymarketTrader.place_order` (func_copy_trade.py
lines 75-111). The three early `return` paths produce no order; only
`submitted` reaches `create_market_order`/`post_order`. -/
inductive OrderOutcome
  | balanceUnavailable
  | insufficientBalance (balance required : ℚ)
  | insufficientPosition (position required : ℚ)
  | submitted (tokenId : String) (direction : SideVal) (amount : ℚ)
  deriving DecidableEq, Repr

/-- Embedding of `PolymarketTrader.place_order`: BUY queries the free collateral
balance and aborts when `balance < amount`; every other direction queries
the position size for the token and aborts when `position < amount`;
otherwise a market order is created and posted. -/
def place_order (env : OrderEnv) (token_id : String) (direction : SideVal)
    (amount : ℚ) : OrderOutcome :=
  if direction.isBuyLiteral then
    match env.balanceInfo with
    | none => .balanceUnavailable
    | some balance =>
        if balance < amount then .insufficientBalance balance amount
        else .submitted token_id direction amount
  else
    if env.positionSize < amount then
      .insufficientPosition env.positionSize amount
    else .submitted token_id direction amount

/-- The trade dict handed to `PolymarketTrader.execute_trade`:
`trade_data.get` returns `None` for an absent key, and the amount is read
as `Decimal(str(trade_data.get("makerAmount", 0)))`, so an absent amount
becomes 0. -/
structure TradeData where
  tokenId : Option String
  side : Option SideVal
  makerAmount : Option ℚ
  deriving DecidableEq, Repr

/-- The amount `execute_trade` works with: absent `makerAmount` defaults
to 0. -/
def TradeData.amount (td : TradeData) : ℚ := td.makerAmount.getD 0

/-- Python truthiness of `token_id = trade_data.get("tokenId")`:
`None` and the empty string are falsy. -/
def truthyTokenId : Option String → Bool
  | none => false
  | some s => !s.isEmpty

/-- The check `all([token_id, side, makerAmount])` in `execute_trade`
(line 131): Python truthiness of all three extracted values. -/
def validates (td : TradeData) : Bool :=
  truthyTokenId td.tokenId && SideVal.truthy td.side && (td.amount != 0)

/-- The size-limit step of `execute_trade` (line 136):
`min(max(makerAmount, min_order), max_order)`. -/
def apply_size_limits (min_order max_order amount : ℚ) : ℚ :=
  min (max amount min_order) max_order

/-- Outcome of `PolymarketTrader.execute_trade`: either the validation
early-return ("Invalid trade data received"), or the clamped amount
forwarded to `place_order`. -/
inductive ExecOutcome
  | invalidTradeData
  | placed (o : OrderOutcome)
  deriving DecidableEq, Repr

/-- Embedding of `PolymarketTrader.execute_trade` (func_copy_trade.py lines 117-145),
after the `asyncio.sleep(self.delay)`: extract fields, validate by
truthiness, clamp the amount into `[min_order, max_order]`, and call
`place_order`. -/
def execute_trade (min_order max_order : ℚ) (env : OrderEnv)
    (td : TradeData) : ExecOutcome :=
  if validates td then
    .placed (place_order env (td.tokenId.getD "")
      (td.side.getD (.int 1)) (apply_size_limits min_order max_order td.amount))
  else .invalidTradeData

/-- The check `validates` fails exactly on a missing or Python-falsy field: absent
or empty `tokenId`, absent side, side `0` (the decoder's BUY encoding),
side `""`, or amount `0` (including an absent amount, which defaults
to 0). -/
theorem validates_eq_false_iff (td : TradeData) :
    validates td = false ↔
      td.tokenId = none ∨ td.tokenId = some "" ∨ td.side = none ∨
      td.side = some (.int 0) ∨ td.side = some (.str "") ∨ td.amount = 0 := by
  rcases td with ⟨tok, sd, amt⟩
  rcases tok with _ | t
  · simp [validates, truthyTokenId]
  rcases sd with _ | sv
  · simp [validates, truthyTokenId, SideVal.truthy]
  · rcases sv with i | s
    · by_cases hi : i = 0
      · subst hi; simp [validates, truthyTokenId, SideVal.truthy]
      · by_cases ht : t = ""
        · subst ht
          simp [validates, truthyTokenId, SideVal.truthy,
            show ("" : String).isEmpty = true from rfl]
        · by_cases ha : (TradeData.mk (some t) (some (.int i)) amt).amount = 0 <;>
            simp [validates, truthyTokenId, SideVal.truthy, hi, ht, ha,
              String.isEmpty_iff]
    · by_cases hs : s = ""
      · subst hs
        simp [validates, truthyTokenId, SideVal.truthy,
          show ("" : String).isEmpty = true from rfl]
      · by_cases ht : t = ""
        · subst ht
          simp [validates, truthyTokenId, SideVal.truthy,
            show ("" : String).isEmpty = true from rfl]
        · by_cases ha : (TradeData.mk (some t) (some (.str s)) amt).amount = 0 <;>
            simp [validates, truthyTokenId, SideVal.truthy, hs, ht, ha,
              String.isEmpty_iff]

/-- Unfolding of `place_order` on the literal direction "BUY": the
balance branch is taken. -/
theorem place_order_str_buy (env : OrderEnv) (tid : String) (amt : ℚ) :
    place_order env tid (.str "BUY") amt =
      match env.balanceInfo with
      | none => .balanceUnavailable
      | some balance =>
          if balance < amt then .insufficientBalance balance amt
          else .submitted tid (.str "BUY") amt := rfl

/-- Unfolding of `place_order` on any direction other than the literal
"BUY": the position branch is taken. -/
theorem place_order_not_buy (env : OrderEnv) (tid : String) (d : SideVal)
    (amt : ℚ) (h : d.isBuyLiteral = false) :
    place_order env tid d amt =
      if env.positionSize < amt then
        .insufficientPosition env.positionSize amt
      else .submitted tid d amt := by
  unfold place_order
  rw [h]
  simp

end CopyTrade

namespace CopyTrade

/-! ## Claim C1 -/

/-- C1: in `place_order` the sizing branch is determined by `side` and the
branches are never conflated: for side "BUY" the executor reads the free
collateral balance and, whenever `balance < amount`, aborts with the
insufficient-balance outcome and submits no order; for side "SELL" it
reads the position size for the token and, whenever `position < amount`,
aborts with the insufficient-position outcome and submits no order; a BUY
never yields a position-based outcome and a SELL never yields a
balance-based outcome. -/
theorem place_order_side_branches (env : OrderEnv) (tid : String) (amt : ℚ) :
    (∀ bal, env.balanceInfo = some bal → bal < amt →
      place_order env tid (.str "BUY") amt = .insufficientBalance bal amt) ∧
    (env.positionSize < amt →
      place_order env tid (.str "SELL") amt =
        .insufficientPosition env.positionSize amt) ∧
    (∀ bal req t d a, place_order env tid (.str "BUY") amt =
        .insufficientBalance bal req →
      place_order env tid (.str "BUY") amt ≠ .submitted t d a) ∧
    (∀ pos req t d a, place_order env tid (.str "SELL") amt =
        .insufficientPosition pos req →
      place_order env tid (.str "SELL") amt ≠ .submitted t d a) ∧
    (∀ pos req, place_order env tid (.str "BUY") amt ≠
      .insufficientPosition pos req) ∧
    (∀ bal req, place_order env tid (.str "SELL") amt ≠
      .insufficientBalance bal req) ∧
    (place_order env tid (.str "SELL") amt ≠ .balanceUnavailable) := by
  refine ⟨?_, ?_, ?_, ?_, ?_, ?_, ?_⟩
  · intro bal hb hlt
    rw [place_order_str_buy, hb]
    simp [hlt]
  · intro hlt
    rw [place_order_not_buy env tid (.str "SELL") amt rfl, if_pos hlt]
  · intro bal req t d a he
    rw [he]; simp
  · intro pos req t d a he
    rw [he]; simp
  · intro pos req
    rw [place_order_str_buy]
    cases h : env.balanceInfo <;> simp
    split <;> simp
  · intro bal req
    rw [place_order_not_buy env tid (.str "SELL") amt rfl]
    split <;> simp
  · rw [place_order_not_buy env tid (.str "SELL") amt rfl]
    split <;> simp

/-- C1 witness: with balance 50 and a BUY of 60 the outcome is the
insufficient-balance abort (the spec's reference test vector), and with
position 2 and a SELL of 3 the outcome is the insufficient-position
abort. -/
theorem place_order_side_branches_witness :
    place_order ⟨some 50, 2⟩ "t" (.str "BUY") 60 =
      .insufficientBalance 50 60 ∧
    place_order ⟨some 50, 2⟩ "t" (.str "SELL") 3 =
      .insufficientPosition 2 3 :=
  ⟨(place_order_side_branches ⟨some 50, 2⟩ "t" 60).1 50 rfl (by norm_num),
   (place_order_side_branches ⟨some 50, 2⟩ "t" 3).2.1 (by norm_num)⟩

/-! ## Claim C2 -/

/-- C2 counterexample: a trade dict with all three required fields present
— tokenId "t", side `0` (the decoder's BUY encoding), makerAmount 5 — is
nevertheless dropped by `execute_trade`'s validation, because the check is
Python truthiness (`all([token_id, side, makerAmount])`), not presence,
and `0` is falsy. The claim says such an input passes validation. -/
theorem execute_trade_validation_cex :
    (Option.isSome (some "t") = true ∧
      Option.isSome (some (SideVal.int 0)) = true ∧
      Option.isSome (some (5 : ℚ)) = true) ∧
    execute_trade 1 100 ⟨some 50, 2⟩ ⟨some "t", some (.int 0), some 5⟩ =
      .invalidTradeData := by
  refine ⟨⟨rfl, rfl, rfl⟩, ?_⟩
  decide

/-- C2 (amended): `execute_trade` drops the instruction with a validation
error iff some required field is missing or Python-falsy: absent or empty
`tokenId`, absent `side`, side `0` (the BUY integer encoding) or `""`, or
amount `0` (an absent amount defaults to 0); any other input passes
validation and proceeds to clamping and `place_order`. -/
theorem execute_trade_validation (min_order max_order : ℚ) (env : OrderEnv)
    (td : TradeData) :
    (execute_trade min_order max_order env td = .invalidTradeData ↔
      td.tokenId = none ∨ td.tokenId = some "" ∨ td.side = none ∨
      td.side = some (.int 0) ∨ td.side = some (.str "") ∨ td.amount = 0) ∧
    (validates td = true →
      execute_trade min_order max_order env td =
        .placed (place_order env (td.tokenId.getD "") (td.side.getD (.int 1))
          (apply_size_limits min_order max_order td.amount))) := by
  constructor
  · rw [← validates_eq_false_iff td]
    unfold execute_trade
    rcases h : validates td <;> simp [h]
  · intro hv
    unfold execute_trade
    rw [hv]
    simp

/-- C2 amended-claim witness: a SELL instruction (side `1`) with all
fields present and truthy passes validation and reaches `place_order`,
while dropping the tokenId trips the validation error. -/
theorem execute_trade_validation_witness :
    execute_trade 1 100 ⟨some 50, 2⟩ ⟨some "t", some (.int 1), some 5⟩ =
      .placed (place_order ⟨some 50, 2⟩ "t" (.int 1)
        (apply_size_limits 1 100 5)) ∧
    execute_trade 1 100 ⟨some 50, 2⟩ ⟨none, some (.int 1), some 5⟩ =
      .invalidTradeData :=
  ⟨(execute_trade_validation 1 100 ⟨some 50, 2⟩
      ⟨some "t", some (.int 1), some 5⟩).2 (by decide),
   (execute_trade_validation 1 100 ⟨some 50, 2⟩
      ⟨none, some (.int 1), some 5⟩).1.mpr (Or.inl rfl)⟩

/-! ## Claim C5 -/

/-- C5: for every amount passing validation, `execute_trade` clamps it into
the closed interval `[min_order, max_order]` of the active mode, the
instruction amount being exactly `min(max(amount, min_order), max_order)`;
whenever `min_order ≤ max_order` the result lies in the interval. -/
theorem apply_size_limits_clamps (min_order max_order amount : ℚ)
    (h : min_order ≤ max_order) :
    apply_size_limits min_order max_order amount =
      min (max amount min_order) max_order ∧
    min_order ≤ apply_size_limits min_order max_order amount ∧
    apply_size_limits min_order max_order amount ≤ max_order ∧
    (∀ env td, validates td = true →
      execute_trade min_order max_order env td =
        .placed (place_order env (td.tokenId.getD "") (td.side.getD (.int 1))
          (min (max td.amount min_order) max_order))) := by
  refine ⟨rfl, le_min (le_max_right _ _) h, min_le_right _ _, ?_⟩
  intro env td hv
  unfold execute_trade
  rw [hv]
  simp [apply_size_limits]

/-- C5 witness: with minOrder 1 and maxOrder 100, an incoming amount of
500 is clamped to 100 and an incoming amount of 0.5 is clamped to 1. -/
theorem apply_size_limits_clamps_witness :
    1 ≤ apply_size_limits 1 100 500 ∧ apply_size_limits 1 100 500 ≤ 100 ∧
    apply_size_limits 1 100 500 = 100 ∧
    apply_size_limits 1 100 (1/2) = 1 :=
  ⟨(apply_size_limits_clamps 1 100 500 (by norm_num)).2.1,
   (apply_size_limits_clamps 1 100 500 (by norm_num)).2.2.1,
   by norm_num [apply_size_limits],
   by norm_num [apply_size_limits]⟩

end CopyTrade

namespace CopyTrade

/-! ## Wallet monitor (`func_monitor.py`) -/

/-- Python's `str.startswith`, on the character sequences of the two
strings. -/
def py_startswith (s pre : String) : Bool :=
  pre.data.isPrefixOf s.data

/-- Python's `str.lower`, as the character sequence of the result. -/
def py_lower (s : String) : List Char :=
  s.data.map Char.toLower

/-- Selector normalization done in `WalletMonitor.__init__` (lines 45-49)
and `WalletBacktest.__init__` (lines 52-56): the configured signature gets
a "0x" prefix when it lacks one. The raw call data is never normalized. -/
def normalize_signature (sig : String) : String :=
  if py_startswith sig "0x" then sig else "0x" ++ sig

/-- The signature filter of `WalletMonitor.process_message` (line 115) and
`WalletBacktest.decode_input_data_web3` (line 132): a case-sensitive
`input_data.startswith(signature)` check against the normalized
selector. -/
def is_target_call (sig input_data : String) : Bool :=
  py_startswith input_data (normalize_signature sig)

/-- Modelled from the spec (for the refinement comparison of claim C3):
the character sequence of the call data after stripping an optional "0x"
prefix. -/
def strip_hex_prefix_spec (s : String) : List Char :=
  if py_startswith s "0x" then s.data.drop 2 else s.data

/-- Modelled from the spec (for the refinement comparison of claim C3):
the Signature Filter as the spec words it — "Compares the first 4 bytes
(8 hex chars) of call data (after stripping an optional 0x prefix)
against a configured selector, case-insensitively." -/
def is_target_call_spec (sig callData : String) : Bool :=
  ((strip_hex_prefix_spec callData).take 8).map Char.toLower ==
    (strip_hex_prefix_spec sig).map Char.toLower

/-- The `takerOrder` struct extracted by `decode_match_orders` from the
web3 ABI decode of a `matchOrders` call. -/
structure TakerOrder where
  maker : String
  makerAmount : ℚ
  tokenId : String
  side : Int
  deriving DecidableEq, Repr

/-- The dict returned by `WalletMonitor.decode_match_orders`: the four
fields read off the decoded `takerOrder`. -/
structure DecodedData where
  maker : String
  makerAmount : ℚ
  tokenId : String
  side : Int
  deriving DecidableEq, Repr

/-- Embedding of `WalletMonitor.decode_match_orders` (func_monitor.py lines 74-99).
The web3 library call `contract.decode_function_input` is an external
collaborator; its result is passed in as `web3Result` (`.error e` models
the library raising with message `e`). The wrapper catches every failure,
logs it at debug level, and returns `None` — it never re-raises, so the
embedding is a total function into `Option`. -/
def decode_match_orders (web3Result : Except String TakerOrder) :
    Option DecodedData × List LogEntry :=
  match web3Result with
  | .ok t => (some ⟨t.maker, t.makerAmount, t.tokenId, t.side⟩, [])
  | .error e =>
      (none, [⟨.debug, "Error decoding matchOrders data: " ++ e⟩])

/-- The attribution test of `process_message` (line 120):
`decoded_data["maker"].lower() == self.target_wallet.lower()`. -/
def attribute_match (maker target : String) : Bool :=
  py_lower maker == py_lower target

/-- The attribution branch of `process_message` (lines 120-131): a
matching maker forwards the decoded dict to the trade callback (after an
info log); a non-matching one is dropped with only a debug log. -/
def attribute_and_dispatch (target : String) (d : DecodedData) :
    Option DecodedData × List LogEntry :=
  if attribute_match d.maker target then
    (some d, [⟨.info, "Target wallet matchOrders detected"⟩])
  else
    (none, [⟨.debug, "MatchOrders TX detected (not target)"⟩])

/-- A parsed `params.result` envelope of a stream message: the fields
`process_message` reads. -/
structure TxData where
  hash : String
  input : String
  deriving DecidableEq, Repr

/-- Outcome of `WalletMonitor.process_message` on one transaction
envelope: whether the decoder was invoked, the argument passed to the
trade callback (none when no callback fires), and the logs emitted. -/
structure ProcessOutcome where
  decodeAttempted : Bool
  callbackArg : Option DecodedData
  logs : List LogEntry
  deriving DecidableEq, Repr

/-- Embedding of `WalletMonitor.process_message` (func_monitor.py lines 102-136) for a
message that parsed into a transaction envelope: filter on the selector,
decode on a match, attribute the decoded event to the watched wallet, and
invoke the callback only for a matching maker. -/
def process_tx (sig target : String) (web3Result : Except String TakerOrder)
    (tx : TxData) : ProcessOutcome :=
  if is_target_call sig tx.input then
    let dres := decode_match_orders web3Result
    match dres.1 with
    | some d =>
        let ares := attribute_and_dispatch target d
        { decodeAttempted := true, callbackArg := ares.1,
          logs := ⟨.info, "MatchOrders TX detected"⟩ :: dres.2 ++ ares.2 }
    | none =>
        { decodeAttempted := true, callbackArg := none,
          logs := ⟨.info, "MatchOrders TX detected"⟩ :: dres.2 ++
            [⟨.debug, "MatchOrders TX detected (not target)"⟩] }
  else
    { decodeAttempted := false, callbackArg := none, logs := [] }

end CopyTrade

namespace CopyTrade

/-! ## Claim C3 -/

/-- C3 counterexample: with configured selector "0xd2539b37", the call
data "0xD2539B3700" — whose first 4 bytes equal the selector up to letter
case — is rejected by the code's filter, because `startswith` is
case-sensitive; the filter described by the claim (strip an optional 0x,
compare the first 8 hex chars case-insensitively) accepts it. -/
theorem is_target_call_cex :
    is_target_call "0xd2539b37" "0xD2539B3700" = false ∧
    is_target_call_spec "0xd2539b37" "0xD2539B3700" = true := by
  constructor <;> decide

/-- C3 (amended): the signature filter returns true exactly when the raw
call data starts, case-sensitively, with the 0x-normalized configured
selector; the "0x" normalization is applied to the configured selector
(kept if already present, prepended otherwise), never stripped from the
call data; and whenever the filter rejects, `process_message` attempts no
decode, produces no event and emits no log. -/
theorem is_target_call_characterization (sig input target h : String)
    (w : Except String TakerOrder) :
    (is_target_call sig input = true ↔
      (normalize_signature sig).data.isPrefixOf input.data = true) ∧
    (py_startswith sig "0x" = true → normalize_signature sig = sig) ∧
    (py_startswith sig "0x" = false →
      normalize_signature sig = "0x" ++ sig) ∧
    (is_target_call sig input = false →
      process_tx sig target w ⟨h, input⟩ = ⟨false, none, []⟩) := by
  refine ⟨Iff.rfl, ?_, ?_, ?_⟩
  · intro hs
    simp [normalize_signature, hs]
  · intro hs
    simp [normalize_signature, hs]
  · intro hf
    simp [process_tx, hf]

/-- C3 amended-claim witness: a selector lacking "0x" is normalized by
prepending it, and call data not starting with the normalized selector
leads to no decode attempt, no event and no log. -/
theorem is_target_call_characterization_witness :
    normalize_signature "d2539b37" = "0x" ++ "d2539b37" ∧
    process_tx "0xd2539b37" "0xabc" (.error "e") ⟨"h", "0xdeadbeef00"⟩ =
      ⟨false, none, []⟩ :=
  ⟨(is_target_call_characterization "d2539b37" "" "" ""
      (.error "e")).2.2.1 (by decide),
   (is_target_call_characterization "0xd2539b37" "0xdeadbeef00" "0xabc" "h"
      (.error "e")).2.2.2 (by decide)⟩

/-! ## Claim C4 -/

/-- C4: for call data passing the signature filter whose parameter decode
fails (the web3 collaborator raising with message `e`),
`decode_match_orders` returns the typed no-event result `none` — the
exception is caught and never re-raised, so the embedding is a total
function — `process_message` invokes no callback, and the failure is
observable as a debug-level log entry, not as a decoded-zero event. -/
theorem decode_failure_no_event (sig target h input e : String)
    (hsel : is_target_call sig input = true) :
    decode_match_orders (.error e) =
      (none, [⟨.debug, "Error decoding matchOrders data: " ++ e⟩]) ∧
    (process_tx sig target (.error e) ⟨h, input⟩).callbackArg = none ∧
    (process_tx sig target (.error e) ⟨h, input⟩).decodeAttempted = true ∧
    ⟨.debug, "Error decoding matchOrders data: " ++ e⟩ ∈
      (process_tx sig target (.error e) ⟨h, input⟩).logs := by
  refine ⟨rfl, ?_, ?_, ?_⟩ <;>
    simp [process_tx, hsel, decode_match_orders]

/-- C4 witness: concrete matching call data with a failing decode yields
no callback, an attempted decode, and a debug log carrying the decode
error. -/
theorem decode_failure_no_event_witness :
    (process_tx "0xd2539b37" "0xabc" (.error "boom")
        ⟨"h", "0xd2539b37ffff"⟩).callbackArg = none ∧
    (process_tx "0xd2539b37" "0xabc" (.error "boom")
        ⟨"h", "0xd2539b37ffff"⟩).decodeAttempted = true :=
  ⟨(decode_failure_no_event "0xd2539b37" "0xabc" "h" "0xd2539b37ffff" "boom"
      (by decide)).2.1,
   (decode_failure_no_event "0xd2539b37" "0xabc" "h" "0xd2539b37ffff" "boom"
      (by decide)).2.2.1⟩

/-! ## Claim C8 -/

/-- C8: the trade attributor matches a decoded event exactly when the
lower-cased maker equals the lower-cased watched wallet (case-insensitive
comparison, so a maker differing only in letter case still matches); a
matching event is forwarded to the callback; a non-matching event is
dropped with no callback and with a debug-level log as the only side
effect of the attribution branch — in particular, in `process_message`
the downstream execute callback is never invoked for it. -/
theorem attributor_case_insensitive (target : String) (d : DecodedData) :
    (attribute_match d.maker target = true ↔
      py_lower d.maker = py_lower target) ∧
    (py_lower d.maker = py_lower target →
      attribute_and_dispatch target d =
        (some d, [⟨.info, "Target wallet matchOrders detected"⟩])) ∧
    (py_lower d.maker ≠ py_lower target →
      (attribute_and_dispatch target d).1 = none ∧
      (attribute_and_dispatch target d).2 =
        [⟨.debug, "MatchOrders TX detected (not target)"⟩] ∧
      ∀ l ∈ (attribute_and_dispatch target d).2, l.level = .debug) ∧
    (∀ sig h input t, is_target_call sig input = true →
      py_lower (TakerOrder.maker t) ≠ py_lower target →
      (process_tx sig target (.ok t) ⟨h, input⟩).callbackArg = none) := by
  refine ⟨?_, ?_, ?_, ?_⟩
  · simp [attribute_match]
  · intro hm
    simp [attribute_and_dispatch, attribute_match, hm]
  · intro hm
    have hf : attribute_match d.maker target = false := by
      simp [attribute_match, hm]
    refine ⟨?_, ?_, ?_⟩
    · simp [attribute_and_dispatch, hf]
    · simp [attribute_and_dispatch, hf]
    · intro l hl
      simp [attribute_and_dispatch, hf] at hl
      rw [hl]
  · intro sig h input t hsel hm
    simp [process_tx, hsel, decode_match_orders, attribute_and_dispatch,
      attribute_match, hm]

/-- C8 witness: a maker differing from the watched wallet only in letter
case is forwarded by the attributor, and a genuinely different maker
yields no callback. -/
theorem attributor_case_insensitive_witness :
    attribute_and_dispatch "0xaBcD" ⟨"0xAbCd", 5, "tok", 0⟩ =
      (some ⟨"0xAbCd", 5, "tok", 0⟩,
        [⟨.info, "Target wallet matchOrders detected"⟩]) ∧
    (attribute_and_dispatch "0xaBcD" ⟨"0xEEEE", 5, "tok", 0⟩).1 = none :=
  ⟨(attributor_case_insensitive "0xaBcD" ⟨"0xAbCd", 5, "tok", 0⟩).2.1
      (by decide),
   ((attributor_case_insensitive "0xaBcD" ⟨"0xEEEE", 5, "tok", 0⟩).2.2.1
      (by decide)).1⟩

end CopyTrade

namespace CopyTrade

/-! ## Backtest aggregator (`func_backtest.py`) -/

/-- One row of the DataFrame handed to `calculate_pnl_stats`: the fields
the P&L computation reads. `side` is the decoded integer (0 = BUY; the
`else` of line 284 treats every other value as SELL), `value` the
USDC-converted transfer value, `timeStamp` the per-group sort key (sums
are unaffected by it). -/
structure PnlRow where
  tokenId : String
  side : Int
  value : ℚ
  timeStamp : ℕ
  deriving DecidableEq, Repr

/-- The per-group loop of `calculate_pnl_stats` (lines 280-287): running
`(total_cost, total_proceeds)`, BUY rows (`side == 0`) accumulating cost,
all other rows accumulating proceeds. -/
def group_totals (rows : List PnlRow) : ℚ × ℚ :=
  rows.foldl
    (fun acc r =>
      if r.side == 0 then (acc.1 + r.value, acc.2)
      else (acc.1, acc.2 + r.value))
    (0, 0)

/-- Distinct keys of a list, in first-appearance order. -/
def distinct_keys (l : List String) : List String :=
  l.foldl (fun acc x => if x ∈ acc then acc else acc ++ [x]) []

/-- The group keys of `df.groupby('tokenId')`: the distinct tokenIds of
the frame (pandas yields them sorted; every statistic below is
order-independent). -/
def token_ids (rows : List PnlRow) : List String :=
  distinct_keys (rows.map (·.tokenId))

/-- The rows of one tokenId group. -/
def token_group (rows : List PnlRow) (tid : String) : List PnlRow :=
  rows.filter (fun r => r.tokenId = tid)

/-- Realized P&L of one tokenId: `total_proceeds - total_cost`
(line 290). -/
def realized_pnl (rows : List PnlRow) (tid : String) : ℚ :=
  (group_totals (token_group rows tid)).2 -
    (group_totals (token_group rows tid)).1

/-- The winning tokenIds of `calculate_pnl_stats` (line 307): those whose
realized P&L is strictly positive. -/
def winning_tokens (rows : List PnlRow) : ℕ :=
  ((token_ids rows).filter (fun tid => decide (0 < realized_pnl rows tid))).length

/-- The win rate of `calculate_pnl_stats` (line 308): winning tokenIds
over all tokenIds present in the frame (when the frame is empty the
column is never written; modelled as 0). -/
def win_rate (rows : List PnlRow) : ℚ :=
  if rows = [] then 0 else winning_tokens rows / (token_ids rows).length

/-- The fold `group_totals` computes the cumulative BUY cost and the cumulative
SELL proceeds: starting the fold from `(c, p)` adds the two filtered
sums. -/
theorem group_totals_from (rows : List PnlRow) (c p : ℚ) :
    rows.foldl
      (fun acc r =>
        if r.side == 0 then (acc.1 + r.value, acc.2)
        else (acc.1, acc.2 + r.value))
      (c, p) =
    (c + ((rows.filter (fun r => r.side == 0)).map PnlRow.value).sum,
     p + ((rows.filter (fun r => !(r.side == 0))).map PnlRow.value).sum) := by
  induction rows generalizing c p with
  | nil => simp
  | cons r rs ih =>
      simp only [List.foldl_cons]
      by_cases hr : r.side = 0
      · simp [hr] at ih ⊢
        simp [ih, add_assoc]
      · simp [hr] at ih ⊢
        simp [ih, add_assoc]

end CopyTrade

namespace CopyTrade

/-! ## Claim C6 -/

/-- C6: per tokenId, the backtest aggregator's realized P&L equals
cumulative SELL proceeds minus cumulative BUY cost (BUY being the rows
with side 0), and on a nonempty frame the win rate is the number of
tokenIds with strictly positive realized P&L divided by the number of
tokenIds carrying at least one row. -/
theorem calculate_pnl_stats_correct (rows : List PnlRow) (h : rows ≠ []) :
    (∀ tid, realized_pnl rows tid =
      (((token_group rows tid).filter (fun r => !(r.side == 0))).map
        PnlRow.value).sum -
      (((token_group rows tid).filter (fun r => r.side == 0)).map
        PnlRow.value).sum) ∧
    win_rate rows =
      (winning_tokens rows : ℚ) / ((token_ids rows).length : ℚ) ∧
    winning_tokens rows =
      ((token_ids rows).filter
        (fun tid => decide (0 < realized_pnl rows tid))).length := by
  refine ⟨?_, ?_, rfl⟩
  · intro tid
    unfold realized_pnl group_totals
    rw [group_totals_from]
    simp
  · unfold win_rate
    rw [if_neg h]

/-- C6 witness (the spec's round-trip vector): two BUYs of value 10 and
one SELL of value 25 on one tokenId give realized P&L 25 − 20 = 5, that
tokenId counts as winning, and the win rate is 1/1 = 1. -/
theorem calculate_pnl_stats_correct_witness :
    realized_pnl
      [⟨"T", 0, 10, 1⟩, ⟨"T", 0, 10, 2⟩, ⟨"T", 1, 25, 3⟩] "T" = 5 ∧
    winning_tokens
      [⟨"T", 0, 10, 1⟩, ⟨"T", 0, 10, 2⟩, ⟨"T", 1, 25, 3⟩] = 1 ∧
    win_rate [⟨"T", 0, 10, 1⟩, ⟨"T", 0, 10, 2⟩, ⟨"T", 1, 25, 3⟩] = 1 ∧
    win_rate [⟨"T", 0, 10, 1⟩, ⟨"T", 0, 10, 2⟩, ⟨"T", 1, 25, 3⟩] =
      (winning_tokens
        [⟨"T", 0, 10, 1⟩, ⟨"T", 0, 10, 2⟩, ⟨"T", 1, 25, 3⟩] : ℚ) /
      ((token_ids
        [⟨"T", 0, 10, 1⟩, ⟨"T", 0, 10, 2⟩, ⟨"T", 1, 25, 3⟩]).length : ℚ) :=
  ⟨by norm_num [realized_pnl, group_totals, token_group],
   by norm_num [winning_tokens, token_ids, distinct_keys, realized_pnl,
     group_totals, token_group],
   by
     rw [win_rate, if_neg (List.cons_ne_nil _ _)]
     norm_num [winning_tokens, token_ids, distinct_keys, realized_pnl,
       group_totals, token_group],
   (calculate_pnl_stats_correct
      [⟨"T", 0, 10, 1⟩, ⟨"T", 0, 10, 2⟩, ⟨"T", 1, 25, 3⟩]
      (List.cons_ne_nil _ _)).2.1⟩

end CopyTrade

namespace CopyTrade

/-! ## Backtest price computation (`func_backtest.py` lines 366-418) -/

/-- The class constant `TRANSFER_SINGLE_TOPIC` (line 33), already
lower-cased at class level. -/
def TRANSFER_SINGLE_TOPIC : String :=
  "0xc3d58168c5ae7397731d063d5bbf3d657854427343f4c083240f7aacaa2d0f62"

/-- One receipt log as read by the BUY branch of `calculate_price`:
`topic0` is `log['topics'][0].hex()` (hex digits, no 0x), `lastTopic` is
`log['topics'][-1].hex()`, and `value` the integer parsed from the last
32 bytes of `log['data']`. -/
structure ReceiptLog where
  topic0 : String
  lastTopic : String
  value : ℕ
  deriving DecidableEq, Repr

/-- Python's `s[-n:]` on a character sequence. -/
def py_last (n : ℕ) (l : List Char) : List Char :=
  l.drop (l.length - n)

/-- The log-selection test of the BUY branch (lines 404-405):
`("0x" + topics[0].hex()).lower() == TRANSFER_SINGLE_TOPIC` and
`"0x" + topics[-1].hex()[-40:].lower() == address.lower()`. -/
def log_matches (lg : ReceiptLog) (address : String) : Bool :=
  (py_lower ("0x" ++ lg.topic0) == TRANSFER_SINGLE_TOPIC.data) &&
    ("0x".data ++ (py_last 40 lg.lastTopic.data).map Char.toLower ==
      py_lower address)

/-- One row of the frame as read by `calculate_price`: `side` and
`tokenId` are `none` when the cell is NaN; `some ""` models the
empty-string default; `makerAmount` is `none` when the cell holds the
non-numeric column default `''` and `some q` when it holds a number;
`value` is the USDC-converted float column. -/
structure PriceRow where
  side : Option Int
  tokenId : Option String
  makerAmount : Option ℚ
  value : ℚ
  hash : String
  deriving DecidableEq, Repr

/-- The guard `pd.isna(row['tokenId']) or row['tokenId'] == ''`
(line 387), and likewise the side guard of line 378. -/
def missing_str : Option String → Bool
  | none => true
  | some s => s.isEmpty

/-- Embedding of `WalletBacktest.calculate_price` (func_backtest.py lines 366-418).
The receipt lookup `w3.eth.get_transaction_receipt` is an external
collaborator passed in as `receipt` (`.error` models it raising). The
returned `Except` models Python control flow: `.ok q` is a returned
price, `.error` an exception propagating to the caller — which happens
exactly when the SELL branch evaluates `float(row['makerAmount'])` on the
non-numeric default, the only expression outside any `try`. The whole BUY
branch sits inside `try/except` and falls back to 1.0 on any failure,
including a non-numeric makerAmount. -/
def calculate_price (row : PriceRow) (address : String)
    (receipt : Except String (List ReceiptLog)) : Except String ℚ :=
  match row.side with
  | none => .ok 1
  | some side =>
      if side = 1 then
        if missing_str row.tokenId then .ok 1
        else
          match row.makerAmount with
          | none => .error "ValueError: could not convert string to float"
          | some ma =>
              if ma = 0 then .ok 1
              else .ok (row.value / (ma / 1000000))
      else if side = 0 then
        .ok (match receipt with
          | .error _ => 1
          | .ok logs =>
              match logs.find? (fun lg => log_matches lg address) with
              | none => 1
              | some lg =>
                  if lg.value = 0 then 1
                  else
                    match row.makerAmount with
                    | none => 1
                    | some ma => ma / (lg.value : ℚ))
      else .ok 1

end CopyTrade

namespace CopyTrade

/-! ## Claim C10 -/

/-- A receipt log whose topics match `TRANSFER_SINGLE_TOPIC` and the
upper-case spelling of the 40-a address, with transferred value 1. -/
def cexLog : ReceiptLog :=
  ⟨"c3d58168c5ae7397731d063d5bbf3d657854427343f4c083240f7aacaa2d0f62",
   "000000000000000000000000aaaaaaaaaaaaaaaaaaaaaaaaaaaaaaaaaaaaaaaa", 1⟩

/-- The target address used by the C10 counterexample, upper-case to
exercise the `.lower()` in the log-selection test. -/
def cexAddress : String := "0xAAAAAAAAAAAAAAAAAAAAAAAAAAAAAAAAAAAAAAAA"

/-- C10 counterexample: (a) a BUY row with a missing tokenId does not get
the fallback price 1.0 — the BUY branch never consults tokenId, so a
matching log gives `makerAmount / value` = 2; (b) a SELL row with tokenId
present but the non-numeric makerAmount column default raises a
`ValueError` to the caller, so `calculate_price` is not raise-free. -/
theorem calculate_price_cex :
    calculate_price ⟨some 0, some "", some 2, 7, "h"⟩ cexAddress
      (.ok [cexLog]) = .ok 2 ∧
    (2 : ℚ) ≠ 1 ∧
    calculate_price ⟨some 1, some "t", none, 7, "h"⟩ cexAddress
      (.ok []) = .error "ValueError: could not convert string to float" := by
  refine ⟨?_, by norm_num, ?_⟩
  · have hm : log_matches cexLog cexAddress = true := by decide
    simp [calculate_price, List.find?, hm]
    norm_num [cexLog]
  · simp [calculate_price, missing_str,
      show ("t" : String).isEmpty = false from rfl]

/-- C10 (amended): `calculate_price` is guarded in every branch except
one: a missing side yields 1.0; a side other than 0 and 1 yields 1.0; on
SELL a missing tokenId yields 1.0, a zero makerAmount yields 1.0 (the
zero check preceding the division), and a numeric nonzero makerAmount
yields `value / (makerAmount / 1e6)`; the sole raising case is a SELL row
with tokenId present and the non-numeric makerAmount default; the whole
BUY branch is total — it always returns some float — with fallback 1.0 on
a failing receipt lookup, an absent matching log, and a zero transferred
value (the zero check preceding that division); the BUY branch never
consults tokenId. -/
theorem calculate_price_guarded (row : PriceRow) (address : String)
    (receipt : Except String (List ReceiptLog)) :
    (row.side = none → calculate_price row address receipt = .ok 1) ∧
    (∀ i, row.side = some i → i ≠ 0 → i ≠ 1 →
      calculate_price row address receipt = .ok 1) ∧
    (row.side = some 1 → missing_str row.tokenId = true →
      calculate_price row address receipt = .ok 1) ∧
    (row.side = some 1 → missing_str row.tokenId = false →
      row.makerAmount = some 0 →
      calculate_price row address receipt = .ok 1) ∧
    (∀ ma, row.side = some 1 → missing_str row.tokenId = false →
      row.makerAmount = some ma → ma ≠ 0 →
      calculate_price row address receipt =
        .ok (row.value / (ma / 1000000))) ∧
    (row.side = some 1 → missing_str row.tokenId = false →
      row.makerAmount = none →
      calculate_price row address receipt =
        .error "ValueError: could not convert string to float") ∧
    (row.side = some 0 → ∃ q, calculate_price row address receipt = .ok q) ∧
    (∀ e, row.side = some 0 → receipt = .error e →
      calculate_price row address receipt = .ok 1) ∧
    (∀ logs, row.side = some 0 → receipt = .ok logs →
      logs.find? (fun lg => log_matches lg address) = none →
      calculate_price row address receipt = .ok 1) ∧
    (∀ logs lg, row.side = some 0 → receipt = .ok logs →
      logs.find? (fun l => log_matches l address) = some lg →
      lg.value = 0 → calculate_price row address receipt = .ok 1) := by
  refine ⟨?_, ?_, ?_, ?_, ?_, ?_, ?_, ?_, ?_, ?_⟩
  · intro h
    simp [calculate_price, h]
  · intro i h h0 h1
    simp [calculate_price, h, h0, h1]
  · intro h ht
    simp [calculate_price, h, ht]
  · intro h ht hm
    simp [calculate_price, h, ht, hm]
  · intro ma h ht hm hz
    simp [calculate_price, h, ht, hm, hz]
  · intro h ht hm
    simp [calculate_price, h, ht, hm]
  · intro h
    simp only [calculate_price, h]
    norm_num
  · intro e h hr
    simp [calculate_price, h, hr]
  · intro logs h hr hf
    simp [calculate_price, h, hr, hf]
  · intro logs lg h hr hf hz
    simp [calculate_price, h, hr, hf, hz]

/-- C10 amended-claim witness: a row with missing side gets the fallback
price 1.0, and a BUY row whose receipt lookup raises gets the fallback
price 1.0. -/
theorem calculate_price_guarded_witness :
    calculate_price ⟨none, none, none, 0, "h"⟩ "a" (.ok []) = .ok 1 ∧
    calculate_price ⟨some 0, some "t", some 4, 7, "h"⟩ "a"
      (.error "boom") = .ok 1 := by
  constructor
  · exact (calculate_price_guarded ⟨none, none, none, 0, "h"⟩ "a"
      (.ok [])).1 rfl
  · exact (calculate_price_guarded ⟨some 0, some "t", some 4, 7, "h"⟩ "a"
      (.error "boom")).2.2.2.2.2.2.2.1 "boom" rfl rfl

end CopyTrade

namespace CopyTrade

/-! ## Stream client run loop (`func_monitor.py` start, lines 162-196) -/

/-- One transport-level action of the `start` run loop. -/
inductive StreamAction
  | connectAttempt
  | sendSubscribe
  | recvAck
  | recvMsg
  | backoff (secs : ℕ)
  deriving DecidableEq, Repr

/-- What the environment does to one iteration of the outer
`while self.running` loop: the `websockets.connect` call raises; or the
connection opens but drops before the subscription ack arrives; or the
connection acknowledges and streams `n` messages before the transport
closes. The stop flag is assumed unset throughout, which is the scope of
claim C7. -/
inductive SessionOutcome
  | connectFail
  | closedBeforeAck
  | streamed (n : ℕ)
  deriving DecidableEq, Repr

/-- Trace of one iteration of the outer loop (lines 167-196): a connect
attempt; on success the subscription request is sent (line 181) and the
ack awaited (line 182) before any message is processed; messages are
received until the transport closes; and every failure path ends in the
fixed `asyncio.sleep(5)` backoff of lines 193 and 196. -/
def session_trace : SessionOutcome → List StreamAction
  | .connectFail => [.connectAttempt, .backoff 5]
  | .closedBeforeAck => [.connectAttempt, .sendSubscribe, .backoff 5]
  | .streamed n =>
      [.connectAttempt, .sendSubscribe, .recvAck] ++
        List.replicate n .recvMsg ++ [.backoff 5]

/-- Trace of the whole `start` loop over a finite script of session
outcomes: with the stop flag unset the loop has no exit and no iteration
bound, so it performs one iteration per script entry however long the
script is. -/
def run_loop_trace (script : List SessionOutcome) : List StreamAction :=
  (script.map session_trace).flatten

/-- A replicated run of received messages contains no other action. -/
theorem count_replicate_recv (a : StreamAction) (h : a ≠ .recvMsg) (n : ℕ) :
    (List.replicate n StreamAction.recvMsg).count a = 0 := by
  induction n with
  | zero => rfl
  | succ k ih =>
      rw [List.replicate_succ, List.count_cons, ih]
      simp [Ne.symm h]

/-- Each loop iteration makes exactly one connect attempt. -/
theorem session_trace_connect_count (o : SessionOutcome) :
    (session_trace o).count .connectAttempt = 1 := by
  cases o with
  | connectFail => rfl
  | closedBeforeAck => rfl
  | streamed n =>
      simp only [session_trace]
      rw [List.count_append, List.count_append,
        count_replicate_recv .connectAttempt (by simp) n]
      rfl

/-- Each loop iteration ends in exactly one five-second backoff. -/
theorem session_trace_backoff_count (o : SessionOutcome) :
    (session_trace o).count (.backoff 5) = 1 := by
  cases o with
  | connectFail => rfl
  | closedBeforeAck => rfl
  | streamed n =>
      simp only [session_trace]
      rw [List.count_append, List.count_append,
        count_replicate_recv (.backoff 5) (by simp) n]
      rfl

/-- Every backoff in a session trace is the fixed five seconds. -/
theorem session_trace_backoff_mem (o : SessionOutcome) (n : ℕ)
    (h : StreamAction.backoff n ∈ session_trace o) : n = 5 := by
  cases o with
  | connectFail => simpa [session_trace] using h
  | closedBeforeAck => simpa [session_trace] using h
  | streamed k =>
      simp only [session_trace] at h
      simp [List.mem_append, List.mem_replicate] at h
      exact h

/-- The run-loop trace unfolds one script entry at a time. -/
theorem run_loop_trace_cons (o : SessionOutcome)
    (rest : List SessionOutcome) :
    run_loop_trace (o :: rest) = session_trace o ++ run_loop_trace rest := by
  simp [run_loop_trace]

end CopyTrade

namespace CopyTrade

/-! ## Claim C7 -/

/-- C7: with the stop flag unset, every disconnect is followed by the
fixed five-second backoff (every backoff in the trace is 5); the loop
makes exactly one connect attempt per backoff interval (each iteration's
trace holds exactly one connect attempt and exactly one backoff); there
is no retry-count ceiling — for a script of any length the loop makes one
attempt per entry — and on each successful reconnect the subscription
request is re-sent immediately after connecting, before any message is
received. -/
theorem reconnect_backoff_resubscribe (script : List SessionOutcome) :
    (run_loop_trace script).count .connectAttempt = script.length ∧
    (run_loop_trace script).count (.backoff 5) = script.length ∧
    (∀ n, StreamAction.backoff n ∈ run_loop_trace script → n = 5) ∧
    (∀ o, (session_trace o).count .connectAttempt = 1 ∧
      (session_trace o).count (.backoff 5) = 1) ∧
    (∀ n, session_trace (.streamed n) =
      [.connectAttempt, .sendSubscribe, .recvAck] ++
        List.replicate n .recvMsg ++ [.backoff 5]) ∧
    session_trace .closedBeforeAck =
      [.connectAttempt, .sendSubscribe, .backoff 5] := by
  refine ⟨?_, ?_, ?_,
    fun o => ⟨session_trace_connect_count o, session_trace_backoff_count o⟩,
    fun n => rfl, rfl⟩
  · induction script with
    | nil => rfl
    | cons o rest ih =>
        rw [run_loop_trace_cons, List.count_append,
          session_trace_connect_count, ih, List.length_cons]
        omega
  · induction script with
    | nil => rfl
    | cons o rest ih =>
        rw [run_loop_trace_cons, List.count_append,
          session_trace_backoff_count, ih, List.length_cons]
        omega
  · intro n hmem
    induction script with
    | nil => simp [run_loop_trace] at hmem
    | cons o rest ih =>
        rw [run_loop_trace_cons, List.mem_append] at hmem
        rcases hmem with h | h
        · exact session_trace_backoff_mem o n h
        · exact ih h

/-- C7 witness: a script of one failed connect followed by one session
streaming a message yields exactly two connect attempts and two
five-second backoffs, and the backoff found in the trace is five
seconds. -/
theorem reconnect_backoff_resubscribe_witness :
    (run_loop_trace [.connectFail, .streamed 1]).count .connectAttempt = 2 ∧
    (run_loop_trace [.connectFail, .streamed 1]).count (.backoff 5) = 2 ∧
    (5 : ℕ) = 5 :=
  ⟨(reconnect_backoff_resubscribe [.connectFail, .streamed 1]).1,
   (reconnect_backoff_resubscribe [.connectFail, .streamed 1]).2.1,
   (reconnect_backoff_resubscribe [.connectFail, .streamed 1]).2.2.1 5
     (by decide)⟩

end CopyTrade

namespace CopyTrade

/-! ## Claim C9: inline mirror execution in the receive loop -/

/-- Actions of the inner receive loop with the awaited handling chain
inlined. In the source, `message = await websocket.recv()` is followed by
`await self.process_message(message)` on the same task (func_monitor.py
lines 186-189); for a matched trade, `process_message` awaits the
`on_trade_callback` (line 129), which awaits `execute_trade`
(main_copy_trade.py line 35), which awaits `asyncio.sleep(self.delay)`
and then the order placement (func_copy_trade.py lines 123-143).
`asyncio.create_task` appears only for the block-height heartbeat
(line 165), never for trade handling, so all of these actions happen
sequentially on the single stream-consumer task. -/
inductive MirrorAction
  | recvMsg (i : ℕ)
  | sleepDelay (d : ℚ)
  | submitOrder (i : ℕ)
  deriving DecidableEq, Repr

/-- Inline handling of one received message (identified by `i`, with a
flag saying whether it decodes and attributes to a matched trade): a
matched trade awaits the configured delay and then submits the mirrored
order before control returns to the receive loop. -/
def handle_message (delay : ℚ) (m : ℕ × Bool) : List MirrorAction :=
  if m.2 then [.sleepDelay delay, .submitOrder m.1] else []

/-- Trace of the receive loop over the inbound messages of one connected
session: each receive is followed by its complete inline handling before
the next receive. -/
def receive_loop_trace (delay : ℚ) (msgs : List (ℕ × Bool)) :
    List MirrorAction :=
  (msgs.map (fun m => .recvMsg m.1 :: handle_message delay m)).flatten

/-- C9 evaluation at the failing input: with two matched trades arriving
on one session and a 2-second configured delay, the receive of the second
message happens only after the first trade's delay and order submission —
the mirror execution is awaited inline in the receive loop, not run on an
independent task, so it blocks ingestion of subsequent stream messages
(contradicting the claim). In general the trace of `m :: msgs` is the
receive of `m`, then all of `m`'s handling, then the rest. -/
theorem receive_loop_blocks :
    receive_loop_trace 2 [(1, true), (2, true)] =
      [.recvMsg 1, .sleepDelay 2, .submitOrder 1,
       .recvMsg 2, .sleepDelay 2, .submitOrder 2] ∧
    (∀ (delay : ℚ) (m : ℕ × Bool) (msgs : List (ℕ × Bool)),
      receive_loop_trace delay (m :: msgs) =
        .recvMsg m.1 ::
          (handle_message delay m ++ receive_loop_trace delay msgs)) := by
  constructor
  · simp [receive_loop_trace, handle_message]
  · intro delay m msgs
    simp [receive_loop_trace]

end CopyTrade
